import Mathlib

/-!
Shallow embedding of the `github-description-updater` scripts
(`automate.py`, `automate_ollama.py`, `github_summarizer.py`).

Python strings are modelled as `Str := List Char` (a Python string is a
sequence of Unicode code points); byte strings are `List Nat`.  Network
responses and the subprocess backend are modelled as explicit input data:
each embedded function takes the response it would have received as an
argument and computes exactly what the Python code computes from it.
Propagated exceptions (`raise_for_status`, `binascii.Error`) are modelled
with `Except`.
-/

/-- A Python `str`: a sequence of Unicode code points. -/
abbrev Str := List Char

/-- Code points of a Lean string literal, used to write `Str` constants. -/
def str (s : String) : Str := s.data

/-- `str.__len__` (Python `len`): number of code points. -/
def pyLen (s : Str) : Nat := s.length

/-- Python `str(n)` for a non-negative integer. -/
def natStr (n : Nat) : Str := (Nat.repr n).data

/-- The whitespace characters recognised by Python's `str.strip` /
`str.rstrip` with no argument, i.e. exactly the code points with
`str.isspace()` true in CPython: U+0009–U+000D, U+001C–U+001F, the
space, U+0085 (NEL), U+00A0 (NBSP), U+1680, U+2000–U+200A, U+2028,
U+2029, U+202F, U+205F and U+3000. -/
def pyIsSpace (c : Char) : Bool :=
  (0x09 ≤ c.toNat && c.toNat ≤ 0x0D) || (0x1C ≤ c.toNat && c.toNat ≤ 0x1F) ||
  c.toNat = 0x20 || c.toNat = 0x85 || c.toNat = 0xA0 || c.toNat = 0x1680 ||
  (0x2000 ≤ c.toNat && c.toNat ≤ 0x200A) || c.toNat = 0x2028 || c.toNat = 0x2029 ||
  c.toNat = 0x202F || c.toNat = 0x205F || c.toNat = 0x3000

/-- Python `s.rstrip()`: drop trailing whitespace. -/
def pyRstrip (s : Str) : Str := (s.reverse.dropWhile pyIsSpace).reverse

/-- Python `s.lstrip()`: drop leading whitespace. -/
def pyLstrip (s : Str) : Str := s.dropWhile pyIsSpace

/-- Python `s.strip()`: drop leading and trailing whitespace. -/
def pyStrip (s : Str) : Str := pyRstrip (pyLstrip s)

/-- Python `s.split("\n")[0]`: the first line of `s`. -/
def firstLine (s : Str) : Str := s.takeWhile (fun c => c ≠ '\n')

/-- Python `", ".join(xs)`. -/
def joinSep (sep : Str) : List Str → Str
  | [] => []
  | [x] => x
  | x :: y :: rest => x ++ sep ++ joinSep sep (y :: rest)

/-- Number of positions of `s` at which `pat` occurs as a contiguous
substring (used to state "the document contains ..." properties). -/
def occurrences (pat s : Str) : Nat :=
  (List.range (s.length + 1)).countP (fun i => pat.isPrefixOf (s.drop i))

/-! ### `base64.b64decode`

Value of a character of the standard base64 alphabet. -/

def b64val (c : Char) : Option Nat :=
  if 'A' ≤ c ∧ c ≤ 'Z' then some (c.toNat - 65)
  else if 'a' ≤ c ∧ c ≤ 'z' then some (c.toNat - 97 + 26)
  else if '0' ≤ c ∧ c ≤ '9' then some (c.toNat - 48 + 52)
  else if c = '+' then some 62
  else if c = '/' then some 63
  else none

/-- Decode a base64 text already filtered to alphabet / padding characters,
four characters at a time; `none` models the `binascii.Error` that
`base64.b64decode` raises on incorrect padding. -/
def b64decodeQuads : List Char → Option (List Nat)
  | [] => some []
  | a :: b :: c :: d :: rest => do
      let va ← b64val a
      let vb ← b64val b
      if c = '=' ∧ d = '=' ∧ rest = [] then
        some [va * 4 + vb / 16]
      else if d = '=' ∧ rest = [] then do
        let vc ← b64val c
        some [va * 4 + vb / 16, (vb % 16) * 16 + vc / 4]
      else do
        let vc ← b64val c
        let vd ← b64val d
        let tail ← b64decodeQuads rest
        some ([va * 4 + vb / 16, (vb % 16) * 16 + vc / 4, (vc % 4) * 64 + vd] ++ tail)
  | _ => none

/-- Python `base64.b64decode(s)` (default `validate=False`: characters
outside the alphabet are discarded first; a group length not a multiple of
four then raises, modelled by `none`).  Returns the decoded bytes. -/
def b64decode (s : Str) : Option (List Nat) :=
  b64decodeQuads (s.filter (fun c => (b64val c).isSome || c = '='))

/-! ### `bytes.decode("utf-8", errors="ignore")`

A UTF-8 continuation byte. -/

def utf8Cont (b : Nat) : Bool := 0x80 ≤ b && b ≤ 0xBF

/-- The valid range of the second byte given the lead byte (CPython's
decoder: overlong encodings, surrogates and values above U+10FFFF are
rejected at the second byte). -/
def utf8Snd (lead b : Nat) : Bool :=
  if lead = 0xE0 then 0xA0 ≤ b && b ≤ 0xBF
  else if lead = 0xED then 0x80 ≤ b && b ≤ 0x9F
  else if lead = 0xF0 then 0x90 ≤ b && b ≤ 0xBF
  else if lead = 0xF4 then 0x80 ≤ b && b ≤ 0x8F
  else utf8Cont b

/-- One step of CPython's UTF-8 decoder with `errors="ignore"`, driven by a
fuel counter (each step consumes at least one input byte, so fuel equal to
the input length never runs out): well-formed sequences become code
points, ill-formed subsequences are skipped. -/
def utf8DecodeGo : Nat → List Nat → List Nat
  | 0, _ => []
  | _ + 1, [] => []
  | fuel + 1, b :: rest =>
    if b < 0x80 then b :: utf8DecodeGo fuel rest
    else if b < 0xC2 then utf8DecodeGo fuel rest
    else if b < 0xE0 then
      match rest with
      | [] => []
      | b2 :: rest2 =>
        if utf8Cont b2 then ((b - 0xC0) * 64 + (b2 - 0x80)) :: utf8DecodeGo fuel rest2
        else utf8DecodeGo fuel (b2 :: rest2)
    else if b < 0xF0 then
      match rest with
      | [] => []
      | b2 :: rest2 =>
        if utf8Snd b b2 then
          match rest2 with
          | [] => []
          | b3 :: rest3 =>
            if utf8Cont b3 then
              ((b - 0xE0) * 4096 + (b2 - 0x80) * 64 + (b3 - 0x80)) :: utf8DecodeGo fuel rest3
            else utf8DecodeGo fuel (b3 :: rest3)
        else utf8DecodeGo fuel (b2 :: rest2)
    else if b < 0xF5 then
      match rest with
      | [] => []
      | b2 :: rest2 =>
        if utf8Snd b b2 then
          match rest2 with
          | [] => []
          | b3 :: rest3 =>
            if utf8Cont b3 then
              match rest3 with
              | [] => []
              | b4 :: rest4 =>
                if utf8Cont b4 then
                  ((b - 0xF0) * 262144 + (b2 - 0x80) * 4096 + (b3 - 0x80) * 64 + (b4 - 0x80))
                    :: utf8DecodeGo fuel rest4
                else utf8DecodeGo fuel (b4 :: rest4)
            else utf8DecodeGo fuel (b3 :: rest3)
        else utf8DecodeGo fuel (b2 :: rest2)
    else utf8DecodeGo fuel rest

/-- Python `bs.decode("utf-8", errors="ignore")` as a list of code points. -/
def utf8DecodeIgnore (bs : List Nat) : List Nat := utf8DecodeGo bs.length bs

/-- Python `bs.decode("utf-8", errors="ignore")` as a `Str` (the decoder
only emits Unicode scalar values, so `Char.ofNat` is exact on them). -/
def utf8ToStr (bs : List Nat) : Str := (utf8DecodeIgnore bs).map Char.ofNat

/-- Sanity check of the two decoders on the spec's example: the base64 of
`"Hello World!"` decodes back to `"Hello World!"`. -/
theorem b64_utf8_hello_world : (b64decode (str "SGVsbG8gV29ybGQh")).map utf8ToStr
    = some (str "Hello World!") := by decide

/-! ### GitHub API layer (`automate.py` / `automate_ollama.py` /
`github_summarizer.py`; these helpers are identical across the scripts) -/

/-- `requests.Response.raise_for_status` raises exactly for 4xx/5xx. -/
def statusError (status : Nat) : Bool := 400 ≤ status && status < 600

/-- The JSON body served by `GET /repos/{owner}/{repo}/readme`, as the
fields `get_readme` reads: `data.get("content")` and
`data.get("encoding")`, plus the HTTP status. -/
structure ReadmeResponse where
  status : Nat
  content : Option Str
  encoding : Option Str

/-- Failures `get_readme` can propagate: an HTTP error from
`raise_for_status`, or `binascii.Error` from `base64.b64decode`. -/
inductive FetchError
  | httpError (status : Nat)
  | badBase64
deriving DecidableEq

/-- `get_readme` (identical in all three scripts): `None` on 404;
`raise_for_status` on other non-success statuses; otherwise decode
`content` when it is truthy and `encoding == "base64"`, else `None`. -/
def get_readme (r : ReadmeResponse) : Except FetchError (Option Str) :=
  if r.status = 404 then .ok none
  else if statusError r.status then .error (.httpError r.status)
  else
    match r.content, r.encoding with
    | some c, some e =>
      if c ≠ [] ∧ e = str "base64" then
        match b64decode c with
        | some bytes => .ok (some (utf8ToStr bytes))
        | none => .error .badBase64
      else .ok none
    | _, _ => .ok none

/-- The response served by `GET /repos/{owner}/{repo}/languages`: HTTP
status plus the language-name → byte-count mapping of the JSON body
(as an association list in server order). -/
structure LanguagesResponse where
  status : Nat
  body : List (Str × Nat)

/-- `get_repo_languages` (`github_summarizer.py`): the decoded body on
status 200, the empty mapping on any other status. -/
def get_repo_languages (r : LanguagesResponse) : List (Str × Nat) :=
  if r.status = 200 then r.body else []

/-- The pagination loop of `list_public_repos` (identical in all three
scripts), with the listing endpoint modelled as a map from page number to
that page's JSON array.  Returns the pages requested (in request order)
together with the accumulated `repos` list.  The loop runs until an empty
page; `fuel` bounds the recursion and is discharged by hypothesis in the
theorems. -/
def list_public_repos_aux (server : Nat → List α) : Nat → Nat → List Nat × List α
  | 0, _ => ([], [])
  | fuel + 1, page =>
    let data := server page
    if data.isEmpty then ([page], [])
    else
      let rec_result := list_public_repos_aux server fuel (page + 1)
      (page :: rec_result.1, data ++ rec_result.2)

/-- `list_public_repos`: start at `page = 1` and keep requesting until the
first empty page. -/
def list_public_repos (server : Nat → List α) (fuel : Nat) : List Nat × List α :=
  list_public_repos_aux server fuel 1

/-! ### Description generation and write-back
(`automate.py` / `automate_ollama.py`) -/

/-- The post-processing applied to a generated description in
`generate_description` (both scripts, `automate.py` lines 91–95 /
`automate_ollama.py` lines 81–85): `description[:117].rstrip() + "..."`
when longer than 120 characters, unchanged otherwise. -/
def truncate_description (description : Str) : Str :=
  if pyLen description > 120 then pyRstrip (description.take 117) ++ str "..."
  else description

/-- Outcome of `subprocess.run(["ollama", "run", MODEL], ...)`: either the
process completed with an exit code, stdout and stderr (already decoded to
text), or an exception (e.g. `TimeoutExpired`) was raised. -/
inductive SubprocOutcome where
  | completed (returncode : Int) (stdout : Str) (stderr : Str)
  | raised
deriving DecidableEq

/-- The prompt built by `generate_description` (`automate_ollama.py`):
intro plus a 1500-character README snippet when a README is available. -/
def description_prompt (repo_name : Str) (readme_content : Option Str) : Str :=
  let prompt_intro := str "Task: Generate a GitHub repo description for '" ++ repo_name ++
    str "'. STRICT RULES: Max 120 characters. Output format: Plain text only - no quotes, no prefixes, no explanations, no markdown. Just the description sentence."
  match readme_content with
  | some readme =>
    if readme ≠ [] then
      prompt_intro ++ str "\n\nThe README of the project is:\n" ++ readme.take 1500 ++
        str "\n\nDescription:"
    else prompt_intro ++ str "\n\nNo README content is available.\n\nDescription:"
  | none => prompt_intro ++ str "\n\nNo README content is available.\n\nDescription:"

/-- `generate_description` (`automate_ollama.py`), with the model runner
as an explicit prompt → outcome map: empty string on a raised exception or
a non-zero exit code, else the stripped first line of stdout, truncated. -/
def generate_description (runner : Str → SubprocOutcome) (repo_name : Str)
    (readme_content : Option Str) : Str :=
  match runner (description_prompt repo_name readme_content) with
  | .raised => []
  | .completed rc stdout _ =>
    if rc ≠ 0 then []
    else truncate_description (firstLine (pyStrip stdout))

/-- Python `repo.get("description") or ""`: the `or` also maps an empty
current description to the empty string. -/
def pyOrEmpty : Option Str → Str
  | some s => if s = [] then [] else s
  | none => []

/-- The PATCH request `update_repo_description` issues: `PATCH
/repos/{owner}/{repo}` with JSON payload `description = <text>`. -/
structure PatchRequest where
  repo : Str
  description : Str
deriving DecidableEq

/-- One iteration of `main`'s loop in `automate.py`/`automate_ollama.py`:
compute `current_description = repo.get("description") or ""`, generate a
new description from the fetched README, and call
`update_repo_description` exactly when `new_description and
new_description != current_description`.  Returns the PATCH request
issued, if any.  `readme` is the value `get_readme` returned for this
repository (an HTTP error there would abort the whole run and is outside
this function). -/
def main_process_repo (runner : Str → SubprocOutcome) (readme : Option Str)
    (repo_name : Str) (description : Option Str) : Option PatchRequest :=
  let current_description := pyOrEmpty description
  let new_description := generate_description runner repo_name readme
  if new_description ≠ [] ∧ new_description ≠ current_description then
    some ⟨repo_name, new_description⟩
  else none

/-! ### Summarizer (`github_summarizer.py`) -/

/-- A repository object as returned by the listing endpoint, restricted to
the fields the scripts read. -/
structure Repo where
  name : Str
  description : Option Str
  html_url : Str
  created_at : Str
  updated_at : Str
  stargazers_count : Nat
  forks_count : Nat
  open_issues_count : Nat
deriving DecidableEq

/-- A repository record after `main` has attached `languages`,
`ai_summary` and `readme_content`. -/
structure Project extends Repo where
  languages : List (Str × Nat)
  ai_summary : Str
  readme_content : Str
deriving DecidableEq

/-- `sorted(languages.items(), key=lambda x: x[1], reverse=True)[:3]`:
Python's sort is stable, and `reverse=True` keeps the original order of
ties, which is exactly `mergeSort` with the reversed comparison. -/
def top_languages (languages : List (Str × Nat)) : List (Str × Nat) :=
  (languages.mergeSort (fun a b => decide (b.2 ≤ a.2))).take 3

/-- `", ".join([lang for lang, _ in top_languages]) if top_languages else
"Unknown"`. -/
def lang_info (languages : List (Str × Nat)) : Str :=
  if top_languages languages = [] then str "Unknown"
  else joinSep (str ", ") ((top_languages languages).map Prod.fst)

/-- The synthesized summary `generate_project_summary` falls back to on a
non-zero exit code or an exception. -/
def fallback_summary (repo_name : Str) (languages : List (Str × Nat)) : Str :=
  str "Repository: " ++ repo_name ++ str "\nTechnologies: " ++ lang_info languages ++
    str "\n*Summary generation failed*"

/-- The prompt built by `generate_project_summary`. -/
def summary_prompt (repo_name : Str) (readme_content : Str)
    (languages : List (Str × Nat)) : Str :=
  str "Task: Analyze this GitHub repository and create a comprehensive project summary.\n\nRepository: " ++
    repo_name ++ str "\nMain Technologies: " ++ lang_info languages ++
    str "\n\nREADME Content:\n" ++ readme_content.take 2000 ++
    str "\n\nPlease provide a detailed summary in the following format:\n- Brief project description (1-2 sentences)\n- Key features or functionality\n- Technologies/frameworks used\n- Purpose or use case\n\nKeep the summary informative but concise (max 300 words). Focus on what the project does and its main value proposition."

/-- `generate_project_summary` (`github_summarizer.py`), with the model
runner as an explicit prompt → outcome map: the fallback on a raised
exception or a non-zero exit code, else the stripped stdout. -/
def generate_project_summary (runner : Str → SubprocOutcome) (repo_name : Str)
    (readme_content : Str) (languages : List (Str × Nat)) : Str :=
  match runner (summary_prompt repo_name readme_content languages) with
  | .raised => fallback_summary repo_name languages
  | .completed rc stdout _ =>
    if rc ≠ 0 then fallback_summary repo_name languages
    else pyStrip stdout

/-- The collection loop of `main` (`github_summarizer.py` lines 190–213):
a repository is kept exactly when its `get_readme` value is truthy
(present and non-empty); kept repositories get `languages`, `ai_summary`
and `readme_content` attached.  `readmeOf` and `langsOf` give the values
`get_readme` / `get_repo_languages` return per repository name (an HTTP
exception in a fetch would abort the whole run and is outside this
function). -/
def collect_repos_with_readme (readmeOf : Str → Option Str)
    (langsOf : Str → List (Str × Nat)) (runner : Str → SubprocOutcome) :
    List Repo → List Project
  | [] => []
  | repo :: rest =>
    match readmeOf repo.name with
    | some readme =>
      if readme ≠ [] then
        let languages := langsOf repo.name
        { toRepo := repo
          languages := languages
          ai_summary := generate_project_summary runner repo.name readme languages
          readme_content := readme } ::
          collect_repos_with_readme readmeOf langsOf runner rest
      else collect_repos_with_readme readmeOf langsOf runner rest
    | none => collect_repos_with_readme readmeOf langsOf runner rest

/-- Python string `≤` (lexicographic by code point). -/
def strLe : Str → Str → Bool
  | [], _ => true
  | _ :: _, [] => false
  | a :: as, b :: bs =>
    if a.toNat < b.toNat then true
    else if a.toNat = b.toNat then strLe as bs
    else false

/-- Python tuple `≤` on an `(int, str)` pair. -/
def keyLe (a b : Nat × Str) : Bool :=
  if a.1 < b.1 then true
  else if a.1 = b.1 then strLe a.2 b.2
  else false

/-- `key=lambda x: (x.get('stargazers_count', 0), x['updated_at'])`. -/
def sort_key (p : Project) : Nat × Str := (p.stargazers_count, p.updated_at)

/-- `repos_with_readme.sort(key=..., reverse=True)`: Python's stable sort,
descending on the key (ties keep their original order), which is
`mergeSort` with the reversed comparison. -/
def sort_repos_with_readme (projects : List Project) : List Project :=
  projects.mergeSort (fun a b => keyLe (sort_key b) (sort_key a))

/-! ### Report generation (`github_summarizer.py`) -/

/-- Decimal digits to a number (for the fixed-position timestamp fields of
`datetime.strptime(ts, "%Y-%m-%dT%H:%M:%SZ")`). -/
def digitsToNat (s : Str) : Nat := s.foldl (fun acc c => acc * 10 + (c.toNat - 48)) 0

/-- `strftime`'s `%B`: the full month name. -/
def monthName (m : Nat) : Str :=
  if m = 1 then str "January" else if m = 2 then str "February"
  else if m = 3 then str "March" else if m = 4 then str "April"
  else if m = 5 then str "May" else if m = 6 then str "June"
  else if m = 7 then str "July" else if m = 8 then str "August"
  else if m = 9 then str "September" else if m = 10 then str "October"
  else if m = 11 then str "November" else str "December"

/-- `datetime.strptime(ts, "%Y-%m-%dT%H:%M:%SZ").strftime("%B %Y")`. -/
def formatMonthYear (ts : Str) : Str :=
  monthName (digitsToNat ((ts.drop 5).take 2)) ++ str " " ++ ts.take 4

/-- `datetime.strptime(ts, "%Y-%m-%dT%H:%M:%SZ").strftime("%B %d, %Y")`
(`%d` is the zero-padded day, exactly the `ts[8:10]` slice). -/
def formatFullDate (ts : Str) : Str :=
  monthName (digitsToNat ((ts.drop 5).take 2)) ++ str " " ++ (ts.drop 8).take 2 ++
    str ", " ++ ts.take 4

/-- `format_repo_stats` (`github_summarizer.py`): one fragment per
positive counter, joined by `" | "`, or the no-engagement placeholder. -/
def format_repo_stats (repo : Project) : Str :=
  let stats :=
    (if repo.stargazers_count > 0 then
      [str "⭐ " ++ natStr repo.stargazers_count ++ str " stars"] else []) ++
    (if repo.forks_count > 0 then
      [str "🍴 " ++ natStr repo.forks_count ++ str " forks"] else []) ++
    (if repo.open_issues_count > 0 then
      [str "📝 " ++ natStr repo.open_issues_count ++ str " open issues"] else [])
  if stats = [] then str "*No public engagement yet*" else joinSep (str " | ") stats

/-- `sum(p.get('stargazers_count', 0) for p in projects)`. -/
def total_stars (projects : List Project) : Nat :=
  (projects.map (fun p => p.stargazers_count)).sum

/-- `sum(p.get('forks_count', 0) for p in projects)`. -/
def total_forks (projects : List Project) : Nat :=
  (projects.map (fun p => p.forks_count)).sum

/-- The header f-string of `generate_markdown_report`, with
`datetime.now().strftime("%B %d, %Y")` passed in as `today`. -/
def report_header (today : Str) (projects : List Project) : Str :=
  str "# 🚀 GitHub Projects Portfolio\n\n**Generated on:** " ++ today ++
  str "  \n**Total Projects with Documentation:** " ++ natStr projects.length ++
  str "\n\n---\n\n## 📊 Quick Overview\n\n| Metric | Count |\n|--------|-------|\n| **Total Documented Projects** | " ++
  natStr projects.length ++
  str " |\n| **Total Stars** | " ++ natStr (total_stars projects) ++
  str " |\n| **Total Forks** | " ++ natStr (total_forks projects) ++
  str " |\n\n---\n\n## 📁 Project Details\n\n"

/-- `lang_badges` / `lang_section`: the first five language names of the
mapping, each wrapped in backticks, or the unknown placeholder. -/
def lang_section (languages : List (Str × Nat)) : Str :=
  let lang_badges := ((languages.map Prod.fst).take 5).map
    (fun lang => str "`" ++ lang ++ str "`")
  if lang_badges = [] then str "`Unknown`" else joinSep (str " ") lang_badges

/-- The per-repository section f-string of `generate_markdown_report`
(`i` is the 1-based index from `enumerate(projects, 1)`). -/
def project_section (i : Nat) (project : Project) : Str :=
  str "### " ++ natStr i ++ str ". [" ++ project.name ++ str "](" ++
  project.html_url ++ str ")\n\n**Technologies:** " ++
  lang_section project.languages ++
  str "  \n**Created:** " ++ formatMonthYear project.created_at ++
  str " | **Last Updated:** " ++ formatFullDate project.updated_at ++
  str "  \n**Stats:** " ++ format_repo_stats project ++ str "\n\n" ++
  project.ai_summary ++ str "\n\n---\n\n"

/-- The `for i, project in enumerate(projects, 1)` accumulation loop of
`generate_markdown_report`. -/
def project_sections : Nat → List Project → Str
  | _, [] => []
  | i, p :: rest => project_section i p ++ project_sections (i + 1) rest

/-- The footer f-string of `generate_markdown_report`. -/
def report_footer (username : Str) : Str :=
  str "\n## 🔗 Connect\n\nVisit my GitHub profile: [@" ++ username ++
  str "](https://github.com/" ++ username ++
  str ")\n\n*This report was generated automatically using AI analysis of repository README files.*\n"

/-- `generate_markdown_report` (`github_summarizer.py` lines 125–183):
header, one section per project in list order, footer. -/
def generate_markdown_report (today username : Str) (projects : List Project) : Str :=
  report_header today projects ++ project_sections 1 projects ++ report_footer username

/-- The report `main` (`github_summarizer.py`) writes: repositories with a
truthy README, sorted descending by `(stargazers_count, updated_at)`,
rendered by `generate_markdown_report`. -/
def summarizer_report (today username : Str) (readmeOf : Str → Option Str)
    (langsOf : Str → List (Str × Nat)) (runner : Str → SubprocOutcome)
    (all_repos : List Repo) : Str :=
  generate_markdown_report today username
    (sort_repos_with_readme (collect_repos_with_readme readmeOf langsOf runner all_repos))

/-! ### Theorems -/

/-- C6: `get_repo_languages` returns the empty mapping for every response
with a non-200 status and the exact decoded mapping, unchanged, for every
response with status 200; a failed fetch is indistinguishable from a
200 response with no languages. -/
theorem C6_get_repo_languages (r : LanguagesResponse) :
    (r.status = 200 → get_repo_languages r = r.body) ∧
    (r.status ≠ 200 → get_repo_languages r = []) ∧
    (r.status ≠ 200 → get_repo_languages r = get_repo_languages ⟨200, []⟩) := by
  unfold get_repo_languages
  exact ⟨fun h => by simp [h], fun h => by simp [h], fun h => by simp [h]⟩

/-- Witness for C6 at the spec's example mapping and at a failed fetch. -/
theorem C6_get_repo_languages_witness :
    get_repo_languages ⟨200, [(str "Python", 1024), (str "JavaScript", 256)]⟩
      = [(str "Python", 1024), (str "JavaScript", 256)] ∧
    get_repo_languages ⟨500, [(str "Python", 1024)]⟩ = [] :=
  ⟨(C6_get_repo_languages ⟨200, [(str "Python", 1024), (str "JavaScript", 256)]⟩).1 rfl,
   (C6_get_repo_languages ⟨500, [(str "Python", 1024)]⟩).2.1 (by decide)⟩

/-- C3: for every 200 response that does not carry truthy base64-encoded
content (missing or empty `content`, or an `encoding` other than
`"base64"`), `get_readme` returns `None` without decoding anything. -/
theorem C3_get_readme_non_base64 (r : ReadmeResponse) (h200 : r.status = 200)
    (h : ¬ ∃ c, r.content = some c ∧ c ≠ [] ∧ r.encoding = some (str "base64")) :
    get_readme r = .ok none := by
  obtain ⟨s, c, e⟩ := r
  simp only at h200 h
  subst h200
  unfold get_readme
  rw [if_neg (by decide : ¬ (200 : Nat) = 404)]
  rw [if_neg (by decide : ¬ statusError 200 = true)]
  cases c with
  | none => cases e <;> rfl
  | some cc =>
    cases e with
    | none => rfl
    | some ee =>
      simp only
      rw [if_neg (fun hb : cc ≠ [] ∧ ee = str "base64" => h ⟨cc, rfl, hb.1, by rw [hb.2]⟩)]

/-- Witness for C3: a 200 response with a non-base64 encoding. -/
theorem C3_get_readme_non_base64_witness :
    get_readme ⟨200, some (str "plain readme text"), some (str "utf-8")⟩ = .ok none :=
  C3_get_readme_non_base64 ⟨200, some (str "plain readme text"), some (str "utf-8")⟩
    rfl (by decide)

/-- C5: in description mode a PATCH carrying the generated text is issued
if and only if the generated text is non-empty and differs from the
current description (`repo.get("description") or ""`); an empty generated
text never triggers a write. -/
theorem C5_write_decision (runner : Str → SubprocOutcome) (readme : Option Str)
    (repo_name : Str) (description : Option Str) :
    (main_process_repo runner readme repo_name description ≠ none ↔
      (generate_description runner repo_name readme ≠ [] ∧
       generate_description runner repo_name readme ≠ pyOrEmpty description)) ∧
    (∀ req, main_process_repo runner readme repo_name description = some req →
      req = ⟨repo_name, generate_description runner repo_name readme⟩) ∧
    (generate_description runner repo_name readme = [] →
      main_process_repo runner readme repo_name description = none) := by
  have hmain : main_process_repo runner readme repo_name description =
      if generate_description runner repo_name readme ≠ [] ∧
         generate_description runner repo_name readme ≠ pyOrEmpty description then
        some ⟨repo_name, generate_description runner repo_name readme⟩
      else none := rfl
  rw [hmain]
  by_cases hc : generate_description runner repo_name readme ≠ [] ∧
      generate_description runner repo_name readme ≠ pyOrEmpty description
  · rw [if_pos hc]
    refine ⟨⟨fun _ => hc, fun _ => by simp⟩, ?_, fun hempty => absurd hempty hc.1⟩
    intro req hreq
    exact (Option.some.inj hreq).symm
  · rw [if_neg hc]
    refine ⟨⟨fun h => absurd rfl h, fun h => absurd h hc⟩, ?_, fun _ => rfl⟩
    intro req hreq
    exact absurd hreq (by simp)

/-- Witness for C5: a runner that produces `"new"` against a current
description `"old"` issues the PATCH; a failing runner (empty generated
text) never writes. -/
theorem C5_write_decision_witness :
    main_process_repo (fun _ => SubprocOutcome.raised) none (str "demo-repo")
      (some (str "old")) = none ∧
    main_process_repo (fun _ => SubprocOutcome.completed 0 (str "new") []) none
      (str "demo-repo") (some (str "old")) ≠ none :=
  ⟨(C5_write_decision (fun _ => SubprocOutcome.raised) none (str "demo-repo")
      (some (str "old"))).2.2 (by decide),
   (C5_write_decision (fun _ => SubprocOutcome.completed 0 (str "new") []) none
      (str "demo-repo") (some (str "old"))).1.mpr (by decide)⟩

/-- C9: when the local model runner exits non-zero or raises, the
description generator returns the empty string and the summary generator
returns the synthesized fallback, which contains the repository name and
the language list; both generators are total (no exception escapes). -/
theorem C9_generator_failure (runner : Str → SubprocOutcome) (repo_name : Str)
    (readme : Option Str) (readme_content : Str) (languages : List (Str × Nat))
    (hfail : ∀ prompt, runner prompt = .raised ∨
      ∃ rc out err, runner prompt = .completed rc out err ∧ rc ≠ 0) :
    generate_description runner repo_name readme = [] ∧
    generate_project_summary runner repo_name readme_content languages
      = fallback_summary repo_name languages ∧
    (∃ l r, fallback_summary repo_name languages = l ++ repo_name ++ r) ∧
    (∃ l r, fallback_summary repo_name languages = l ++ lang_info languages ++ r) := by
  refine ⟨?_, ?_, ?_, ?_⟩
  · unfold generate_description
    rcases hfail (description_prompt repo_name readme) with h | ⟨rc, out, err, h, hrc⟩
    · rw [h]
    · rw [h]
      simp [hrc]
  · unfold generate_project_summary
    rcases hfail (summary_prompt repo_name readme_content languages) with h | ⟨rc, out, err, h, hrc⟩
    · rw [h]
    · rw [h]
      simp [hrc]
  · exact ⟨str "Repository: ",
      str "\nTechnologies: " ++ lang_info languages ++ str "\n*Summary generation failed*",
      by simp [fallback_summary]⟩
  · exact ⟨str "Repository: " ++ repo_name ++ str "\nTechnologies: ",
      str "\n*Summary generation failed*", by simp [fallback_summary]⟩

/-- Witness for C9: a runner that always raises. -/
theorem C9_generator_failure_witness :
    generate_description (fun _ => SubprocOutcome.raised) (str "demo") none = [] ∧
    generate_project_summary (fun _ => SubprocOutcome.raised) (str "demo") (str "rm")
      [(str "Python", 3)] = fallback_summary (str "demo") [(str "Python", 3)] :=
  ⟨(C9_generator_failure (fun _ => SubprocOutcome.raised) (str "demo") none (str "rm")
      [(str "Python", 3)] (fun _ => Or.inl rfl)).1,
   (C9_generator_failure (fun _ => SubprocOutcome.raised) (str "demo") none (str "rm")
      [(str "Python", 3)] (fun _ => Or.inl rfl)).2.1⟩

set_option maxRecDepth 100000 in
/-- C7: the report generated for the empty repository list shows a
"Total Documented Projects" figure of 0 and contains no per-repository
sections (every section emitted by the loop starts with `"### "`, and
that marker does not occur). -/
theorem C7_empty_report :
    occurrences (str "| **Total Documented Projects** | 0 |")
      (generate_markdown_report (str "January 01, 2026") (str "demo-user") []) = 1 ∧
    occurrences (str "### ")
      (generate_markdown_report (str "January 01, 2026") (str "demo-user") []) = 0 ∧
    project_sections 1 [] = [] := by decide

/-- Counterexample to C2's "only if" direction: a 200 response whose
encoding is not base64 also yields the absent marker, with a status that
is not 404. -/
theorem C2_get_readme_counterexample :
    get_readme ⟨200, some (str "plain text readme"), some (str "utf-8")⟩ = .ok none ∧
    (200 : Nat) ≠ 404 := ⟨rfl, by decide⟩

/-- C2 (amended): `get_readme` returns the absent marker exactly on a 404
response or on a non-error response without truthy base64-encoded
content; for every success response carrying truthy, well-formed
base64-encoded content, the returned text is the UTF-8 decoding of the
base64 payload. -/
theorem C2_get_readme_amended (r : ReadmeResponse) :
    (get_readme r = .ok none ↔
      (r.status = 404 ∨ (statusError r.status = false ∧
        ¬ ∃ c, r.content = some c ∧ c ≠ [] ∧ r.encoding = some (str "base64")))) ∧
    (∀ c bytes, r.status = 200 → r.content = some c → c ≠ [] →
      r.encoding = some (str "base64") → b64decode c = some bytes →
      get_readme r = .ok (some (utf8ToStr bytes))) := by
  obtain ⟨s, c, e⟩ := r
  constructor
  · simp only
    unfold get_readme
    by_cases h404 : s = 404
    · simp [h404]
    · rw [if_neg h404]
      by_cases herr : statusError s = true
      · simp only [herr, if_pos]
        constructor
        · intro h; cases h
        · rintro (h | ⟨hfalse, _⟩)
          · exact absurd h h404
          · exact Bool.noConfusion hfalse
      · rw [if_neg herr]
        have herr' : statusError s = false := by
          cases hse : statusError s
          · rfl
          · exact absurd hse herr
        cases c with
        | none =>
          simp only
          constructor
          · intro _
            exact Or.inr ⟨herr', by rintro ⟨c, hc, _⟩; cases hc⟩
          · intro _; trivial
        | some cc =>
          cases e with
          | none =>
            simp only
            constructor
            · intro _
              exact Or.inr ⟨herr', by rintro ⟨c, _, _, he⟩; cases he⟩
            · intro _; trivial
          | some ee =>
            simp only
            by_cases hbase : cc ≠ [] ∧ ee = str "base64"
            · rw [if_pos hbase]
              constructor
              · intro h
                cases hb : b64decode cc with
                | some bytes => rw [hb] at h; cases h
                | none => rw [hb] at h; cases h
              · rintro (h | ⟨_, hno⟩)
                · exact absurd h h404
                · exact absurd ⟨cc, rfl, hbase.1, by rw [hbase.2]⟩ hno
            · rw [if_neg hbase]
              constructor
              · intro _
                refine Or.inr ⟨herr', ?_⟩
                rintro ⟨c, hc, hne, he⟩
                cases hc
                exact hbase ⟨hne, by injection he⟩
              · intro _; trivial
  · intro cc bytes hs hc hne he hdec
    cases hc
    cases he
    simp only at hs
    subst hs
    unfold get_readme
    rw [if_neg (by decide : ¬ (200 : Nat) = 404)]
    rw [if_neg (by decide : ¬ statusError 200 = true)]
    simp [hne, hdec]

/-- Witness for C2 (amended) at the spec's example payload: the base64 of
`"Hello World!"` comes back as the text `"Hello World!"`; a 404 response
comes back as the absent marker. -/
theorem C2_get_readme_amended_witness :
    get_readme ⟨200, some (str "SGVsbG8gV29ybGQh"), some (str "base64")⟩
      = .ok (some (str "Hello World!")) ∧
    get_readme ⟨404, none, none⟩ = .ok none := by
  constructor
  · have h := (C2_get_readme_amended ⟨200, some (str "SGVsbG8gV29ybGQh"), some (str "base64")⟩).2
      (str "SGVsbG8gV29ybGQh") ((str "Hello World!").map Char.toNat)
      rfl rfl (by decide) rfl (by decide)
    rw [h]
    exact congrArg (fun t => Except.ok (some t)) (by decide)
  · exact (C2_get_readme_amended ⟨404, none, none⟩).1.mpr (Or.inl rfl)

/-- `dropWhile` never lengthens a list (helper for the truncation bound). -/
theorem list_length_dropWhile_le (p : α → Bool) (l : List α) :
    (l.dropWhile p).length ≤ l.length := by
  induction l with
  | nil => exact Nat.le_refl _
  | cons a l ih =>
    rw [List.dropWhile_cons]
    split
    · exact Nat.le_succ_of_le ih
    · exact Nat.le_refl _

/-- `rstrip` never lengthens a string. -/
theorem pyRstrip_length_le (s : Str) : (pyRstrip s).length ≤ s.length := by
  unfold pyRstrip
  rw [List.length_reverse]
  calc (s.reverse.dropWhile pyIsSpace).length
      ≤ s.reverse.length := list_length_dropWhile_le pyIsSpace s.reverse
    _ = s.length := List.length_reverse s

/-- Counterexample to C4: for a 121-character text whose 117th character
is a space, the result is not the first 117 characters plus the ellipsis
(the `rstrip()` in `description[:117].rstrip() + "..."` removes the
space), and its total length is 119, not 120.  The same happens for
non-ASCII whitespace such as U+00A0, which `rstrip()` also removes. -/
theorem C4_truncate_counterexample :
    (pyLen (List.replicate 116 'a' ++ str " bcde") > 120 ∧
      truncate_description (List.replicate 116 'a' ++ str " bcde") ≠
        (List.replicate 116 'a' ++ str " bcde").take 117 ++ str "..." ∧
      pyLen (truncate_description (List.replicate 116 'a' ++ str " bcde")) = 119) ∧
    (pyLen (List.replicate 116 'a' ++ '\xa0' :: str "bcde") > 120 ∧
      pyLen (truncate_description (List.replicate 116 'a' ++ '\xa0' :: str "bcde"))
        = 119) := by
  decide

/-- C4 (amended): generated text longer than 120 characters becomes its
first 117 characters with trailing whitespace removed, followed by the
3-character ellipsis — total length at most 120, and exactly 120 when the
117-character prefix carries no trailing whitespace; text of length at
most 120 is returned unchanged. -/
theorem C4_truncate_amended (s : Str) :
    (pyLen s > 120 →
      truncate_description s = pyRstrip (s.take 117) ++ str "..." ∧
      pyLen (truncate_description s) ≤ 120 ∧
      (pyRstrip (s.take 117) = s.take 117 →
        pyLen (truncate_description s) = 120)) ∧
    (pyLen s ≤ 120 → truncate_description s = s) := by
  constructor
  · intro hlong
    have heq : truncate_description s = pyRstrip (s.take 117) ++ str "..." := by
      unfold truncate_description
      rw [if_pos hlong]
    have htake : (s.take 117).length = 117 := by
      rw [List.length_take]
      unfold pyLen at hlong
      omega
    refine ⟨heq, ?_, ?_⟩
    · rw [heq]
      unfold pyLen
      rw [List.length_append]
      have := pyRstrip_length_le (s.take 117)
      rw [htake] at this
      have h3 : (str "...").length = 3 := rfl
      omega
    · intro hnostrip
      rw [heq, hnostrip]
      unfold pyLen
      rw [List.length_append, htake]
      rfl
  · intro hshort
    unfold truncate_description
    rw [if_neg (by omega)]

/-- Witness for C4 (amended): 121 letters truncate to 117 letters plus the
ellipsis (length 120); a short text passes through unchanged. -/
theorem C4_truncate_amended_witness :
    truncate_description (List.replicate 121 'a')
      = pyRstrip ((List.replicate 121 'a').take 117) ++ str "..." ∧
    pyLen (truncate_description (List.replicate 121 'a')) = 120 ∧
    truncate_description (str "short text") = str "short text" :=
  ⟨((C4_truncate_amended (List.replicate 121 'a')).1 (by decide)).1,
   ((C4_truncate_amended (List.replicate 121 'a')).1 (by decide)).2.2 (by decide),
   (C4_truncate_amended (str "short text")).2 (by decide)⟩

/-- The pagination loop starting from an arbitrary page: if `N` is the
first empty page at or after `page`, the loop requests exactly pages
`page..N` and returns the concatenation of pages `page..N-1`. -/
theorem list_public_repos_aux_spec (server : Nat → List α) :
    ∀ fuel page N, page ≤ N → server N = [] →
    (∀ p, page ≤ p → p < N → server p ≠ []) → N - page < fuel →
    list_public_repos_aux server fuel page =
      (List.range' page (N - page + 1),
       ((List.range' page (N - page)).map server).flatten) := by
  intro fuel
  induction fuel with
  | zero => intro page N _ _ _ hfuel; omega
  | succ fuel ih =>
    intro page N hpN hNe hprev hfuel
    unfold list_public_repos_aux
    by_cases hp : server page = []
    · have hpage : page = N := by
        by_contra hne
        exact hprev page (Nat.le_refl page) (Nat.lt_of_le_of_ne hpN hne) hp
      subst hpage
      rw [Nat.sub_self]
      simp [hp, List.isEmpty_iff]
    · have hlt : page < N := Nat.lt_of_le_of_ne hpN (fun h => hp (h ▸ hNe))
      have hrec := ih (page + 1) N hlt hNe
        (fun p h1 h2 => hprev p (Nat.le_of_succ_le h1) h2) (by omega)
      have hne : (server page).isEmpty = false := by
        cases hcase : server page with
        | nil => exact absurd hcase hp
        | cons x xs => rfl
      simp only [hne, Bool.false_eq_true, if_false, hrec]
      rw [Prod.mk.injEq]
      constructor
      · rw [show N - page + 1 = (N - (page + 1) + 1) + 1 from by omega,
          List.range'_succ page (N - (page + 1) + 1) 1]
      · rw [show N - page = (N - (page + 1)) + 1 from by omega,
          List.range'_succ page (N - (page + 1)) 1, List.map_cons, List.flatten_cons]

/-- C1: `list_public_repos` requests exactly the pages `1, 2, ..., N`
(monotonically increasing from 1) where `N` is the first page the server
answers with zero entries, and returns the concatenation of the prior
pages `1..N-1` in server order. -/
theorem C1_list_public_repos (server : Nat → List α) (N fuel : Nat)
    (hN1 : 1 ≤ N) (hNempty : server N = [])
    (hbefore : ∀ p, 1 ≤ p → p < N → server p ≠ [])
    (hfuel : N ≤ fuel) :
    list_public_repos server fuel =
      (List.range' 1 N, ((List.range' 1 (N - 1)).map server).flatten) := by
  unfold list_public_repos
  rw [list_public_repos_aux_spec server fuel 1 N hN1 hNempty
    (fun p h1 h2 => hbefore p h1 h2) (by omega)]
  rw [show N - 1 + 1 = N from by omega]

/-- Witness for C1: a server with non-empty pages 1 and 2 gets requests
for pages 1, 2, 3 and the two pages' entries in order. -/
theorem C1_list_public_repos_witness :
    list_public_repos (fun p => if p ≤ 2 then [10 * p] else []) 5
      = ([1, 2, 3], [10, 20]) := by
  have hb : ∀ p, 1 ≤ p → p < 3 → (if p ≤ 2 then [10 * p] else []) ≠ ([] : List Nat) := by
    intro p h1 h2
    interval_cases p <;> decide
  rw [C1_list_public_repos (fun p => if p ≤ 2 then [10 * p] else []) 3 5
    (by decide) (by decide) hb (by decide)]
  decide

/-- `strLe` is total. -/
theorem strLe_total : ∀ s t : Str, strLe s t = true ∨ strLe t s = true
  | [], _ => Or.inl rfl
  | _ :: _, [] => Or.inr rfl
  | a :: as, b :: bs => by
    unfold strLe
    by_cases hlt : a.toNat < b.toNat
    · left
      rw [if_pos hlt]
    · by_cases heq : a.toNat = b.toNat
      · rw [if_neg hlt, if_pos heq, if_neg (by omega), if_pos heq.symm]
        exact strLe_total as bs
      · right
        rw [if_pos (by omega)]

/-- `strLe` is transitive. -/
theorem strLe_trans : ∀ {s t u : Str},
    strLe s t = true → strLe t u = true → strLe s u = true
  | [], _, _, _, _ => rfl
  | _ :: _, [], _, h, _ => by cases h
  | _ :: _, _ :: _, [], _, h => by cases h
  | a :: as, b :: bs, c :: cs, h1, h2 => by
    unfold strLe at h1 h2 ⊢
    by_cases hab : a.toNat < b.toNat
    · by_cases hbc : b.toNat < c.toNat
      · rw [if_pos (by omega)]
      · by_cases hbc' : b.toNat = c.toNat
        · rw [if_pos (by omega)]
        · rw [if_neg hbc, if_neg hbc'] at h2
          cases h2
    · by_cases hab' : a.toNat = b.toNat
      · rw [if_neg hab, if_pos hab'] at h1
        by_cases hbc : b.toNat < c.toNat
        · rw [if_pos (by omega)]
        · by_cases hbc' : b.toNat = c.toNat
          · rw [if_neg (by omega), if_pos (by omega)]
            rw [if_neg hbc, if_pos hbc'] at h2
            exact strLe_trans h1 h2
          · rw [if_neg hbc, if_neg hbc'] at h2
            cases h2
      · rw [if_neg hab, if_neg hab'] at h1
        cases h1

/-- `keyLe` spelt out: strictly smaller star count, or equal star count
and lexicographically not-larger timestamp. -/
theorem keyLe_iff (a b : Nat × Str) :
    keyLe a b = true ↔ (a.1 < b.1 ∨ (a.1 = b.1 ∧ strLe a.2 b.2 = true)) := by
  unfold keyLe
  by_cases hlt : a.1 < b.1
  · rw [if_pos hlt]
    simp [hlt]
  · rw [if_neg hlt]
    by_cases heq : a.1 = b.1
    · rw [if_pos heq]
      simp [hlt, heq]
    · rw [if_neg heq]
      simp [hlt, heq]

/-- `keyLe` is total. -/
theorem keyLe_total (a b : Nat × Str) : keyLe a b = true ∨ keyLe b a = true := by
  rw [keyLe_iff, keyLe_iff]
  by_cases hlt : a.1 < b.1
  · exact Or.inl (Or.inl hlt)
  · by_cases heq : a.1 = b.1
    · rcases strLe_total a.2 b.2 with h | h
      · exact Or.inl (Or.inr ⟨heq, h⟩)
      · exact Or.inr (Or.inr ⟨heq.symm, h⟩)
    · exact Or.inr (Or.inl (by omega))

/-- `keyLe` is transitive. -/
theorem keyLe_trans {a b c : Nat × Str}
    (h1 : keyLe a b = true) (h2 : keyLe b c = true) : keyLe a c = true := by
  rw [keyLe_iff] at h1 h2 ⊢
  rcases h1 with h1 | ⟨h1, h1'⟩
  · rcases h2 with h2 | ⟨h2, _⟩
    · exact Or.inl (by omega)
    · exact Or.inl (by omega)
  · rcases h2 with h2 | ⟨h2, h2'⟩
    · exact Or.inl (by omega)
    · exact Or.inr ⟨by omega, strLe_trans h1' h2'⟩

/-- C10 (implicit): before the report is generated the included
repositories are sorted descending by the pair
`(stargazers_count, updated_at)`: the sorted list is a permutation of the
collected list, and in it every earlier repository has strictly more
stars than each later one, or equal stars and a timestamp that is
lexicographically (hence, for the ISO format used, chronologically) at
least as recent. -/
theorem C10_sort_descending (projects : List Project) :
    (sort_repos_with_readme projects).Perm projects ∧
    List.Pairwise (fun a b =>
      b.stargazers_count < a.stargazers_count ∨
        (b.stargazers_count = a.stargazers_count ∧
          strLe b.updated_at a.updated_at = true))
      (sort_repos_with_readme projects) := by
  constructor
  · exact List.mergeSort_perm projects _
  · have h := @List.sorted_mergeSort Project
      (fun a b : Project => keyLe (sort_key b) (sort_key a))
      (fun a b c hab hbc => keyLe_trans hbc hab)
      (fun a b => by
        show (keyLe (sort_key b) (sort_key a) || keyLe (sort_key a) (sort_key b)) = true
        rcases keyLe_total (sort_key b) (sort_key a) with h | h
        · rw [h]; rfl
        · rw [h, Bool.or_true])
      projects
    exact h.imp (fun hab => (keyLe_iff _ _).1 hab)

/-- The collection loop keeps exactly the repositories whose README value
is truthy, in order, each carried unchanged into the project record. -/
theorem collect_map_toRepo (readmeOf : Str → Option Str)
    (langsOf : Str → List (Str × Nat)) (runner : Str → SubprocOutcome) :
    ∀ repos : List Repo,
    (collect_repos_with_readme readmeOf langsOf runner repos).map Project.toRepo
      = repos.filter (fun repo => !((readmeOf repo.name).getD []).isEmpty) := by
  intro repos
  induction repos with
  | nil => rfl
  | cons repo rest ih =>
    unfold collect_repos_with_readme
    rw [List.filter_cons]
    cases h : readmeOf repo.name with
    | none => simpa [h] using ih
    | some rm =>
      dsimp only [Option.getD]
      by_cases hrm : rm = []
      · subst hrm
        simpa using ih
      · rw [if_pos hrm]
        rw [if_pos (by simpa [List.isEmpty_iff] using hrm : (!rm.isEmpty) = true)]
        rw [List.map_cons, ih]
        rfl

/-- Every collected project's README value was present and non-empty. -/
theorem collect_mem_readme (readmeOf : Str → Option Str)
    (langsOf : Str → List (Str × Nat)) (runner : Str → SubprocOutcome) :
    ∀ (repos : List Repo) (p : Project),
      p ∈ collect_repos_with_readme readmeOf langsOf runner repos →
      ∃ rm, readmeOf p.name = some rm ∧ rm ≠ [] := by
  intro repos
  induction repos with
  | nil => intro p hp; cases hp
  | cons repo rest ih =>
    intro p hp
    unfold collect_repos_with_readme at hp
    cases h : readmeOf repo.name with
    | none =>
      rw [h] at hp
      exact ih p hp
    | some rm =>
      rw [h] at hp
      dsimp only at hp
      by_cases hrm : rm = []
      · rw [if_neg (fun hcon => hcon hrm)] at hp
        exact ih p hp
      · rw [if_pos hrm] at hp
        rcases List.mem_cons.mp hp with heq | hmem
        · subst heq
          exact ⟨rm, h, hrm⟩
        · exact ih p hmem

/-- C8: only repositories whose README fetch came back truthy (present
and non-empty) are carried into the report, in listing order, and the
report's "Total Stars" / "Total Forks" figures are the sums of
`stargazers_count` / `forks_count` over exactly those repositories (the
sort being a permutation, the sums are unaffected by it). -/
theorem C8_report_inclusion_and_totals (today username : Str)
    (readmeOf : Str → Option Str) (langsOf : Str → List (Str × Nat))
    (runner : Str → SubprocOutcome) (all_repos : List Repo) :
    (∀ p ∈ collect_repos_with_readme readmeOf langsOf runner all_repos,
      ∃ rm, readmeOf p.name = some rm ∧ rm ≠ []) ∧
    (collect_repos_with_readme readmeOf langsOf runner all_repos).map Project.toRepo
      = all_repos.filter (fun repo => !((readmeOf repo.name).getD []).isEmpty) ∧
    total_stars (sort_repos_with_readme
        (collect_repos_with_readme readmeOf langsOf runner all_repos))
      = ((all_repos.filter (fun repo => !((readmeOf repo.name).getD []).isEmpty)).map
          (fun repo => repo.stargazers_count)).sum ∧
    total_forks (sort_repos_with_readme
        (collect_repos_with_readme readmeOf langsOf runner all_repos))
      = ((all_repos.filter (fun repo => !((readmeOf repo.name).getD []).isEmpty)).map
          (fun repo => repo.forks_count)).sum ∧
    ∃ l r, summarizer_report today username readmeOf langsOf runner all_repos
      = l ++ (str "| **Total Stars** | " ++
          natStr (total_stars (sort_repos_with_readme
            (collect_repos_with_readme readmeOf langsOf runner all_repos))) ++
          str " |\n| **Total Forks** | " ++
          natStr (total_forks (sort_repos_with_readme
            (collect_repos_with_readme readmeOf langsOf runner all_repos))) ++
          str " |") ++ r := by
  have hmap := collect_map_toRepo readmeOf langsOf runner all_repos
  have hstars : total_stars (sort_repos_with_readme
        (collect_repos_with_readme readmeOf langsOf runner all_repos))
      = ((all_repos.filter (fun repo => !((readmeOf repo.name).getD []).isEmpty)).map
          (fun repo => repo.stargazers_count)).sum := by
    unfold total_stars sort_repos_with_readme
    rw [((List.mergeSort_perm
      (collect_repos_with_readme readmeOf langsOf runner all_repos) _).map
        (fun p : Project => p.stargazers_count)).sum_eq]
    rw [show (fun p : Project => p.stargazers_count)
        = (fun repo : Repo => repo.stargazers_count) ∘ Project.toRepo from rfl]
    rw [← List.map_map, hmap]
  have hforks : total_forks (sort_repos_with_readme
        (collect_repos_with_readme readmeOf langsOf runner all_repos))
      = ((all_repos.filter (fun repo => !((readmeOf repo.name).getD []).isEmpty)).map
          (fun repo => repo.forks_count)).sum := by
    unfold total_forks sort_repos_with_readme
    rw [((List.mergeSort_perm
      (collect_repos_with_readme readmeOf langsOf runner all_repos) _).map
        (fun p : Project => p.forks_count)).sum_eq]
    rw [show (fun p : Project => p.forks_count)
        = (fun repo : Repo => repo.forks_count) ∘ Project.toRepo from rfl]
    rw [← List.map_map, hmap]
  refine ⟨collect_mem_readme readmeOf langsOf runner all_repos, hmap, hstars, hforks, ?_⟩
  refine ⟨str "# 🚀 GitHub Projects Portfolio\n\n**Generated on:** " ++ today ++
    str "  \n**Total Projects with Documentation:** " ++
    natStr (sort_repos_with_readme
      (collect_repos_with_readme readmeOf langsOf runner all_repos)).length ++
    str "\n\n---\n\n## 📊 Quick Overview\n\n| Metric | Count |\n|--------|-------|\n| **Total Documented Projects** | " ++
    natStr (sort_repos_with_readme
      (collect_repos_with_readme readmeOf langsOf runner all_repos)).length ++
    str " |\n",
    str "\n\n---\n\n## 📁 Project Details\n\n" ++
    project_sections 1 (sort_repos_with_readme
      (collect_repos_with_readme readmeOf langsOf runner all_repos)) ++
    report_footer username, ?_⟩
  unfold summarizer_report generate_markdown_report report_header
  rw [show str " |\n| **Total Stars** | "
    = str " |\n" ++ str "| **Total Stars** | " from rfl]
  rw [show str " |\n\n---\n\n## 📁 Project Details\n\n"
    = str " |" ++ str "\n\n---\n\n## 📁 Project Details\n\n" from rfl]
  simp only [List.append_assoc]

/-- Witness for C8, on the spec's end-to-end scenario: of two repositories
(3 stars/1 fork with a README, 5 stars/2 forks without), only the one
with the README is collected, and the report totals count it alone. -/
theorem C8_report_inclusion_and_totals_witness :
    (∃ rm, (fun n : Str => if n = str "alpha" then some (str "# hi") else none)
      (str "alpha") = some rm ∧ rm ≠ []) ∧
    total_stars (sort_repos_with_readme (collect_repos_with_readme
      (fun n : Str => if n = str "alpha" then some (str "# hi") else none)
      (fun _ => []) (fun _ => SubprocOutcome.raised)
      [⟨str "alpha", none, str "https://github.com/u/alpha",
          str "2024-01-02T03:04:05Z", str "2024-06-07T08:09:10Z", 3, 1, 0⟩,
       ⟨str "beta", none, str "https://github.com/u/beta",
          str "2023-01-02T03:04:05Z", str "2024-05-06T07:08:09Z", 5, 2, 4⟩])) = 3 ∧
    total_forks (sort_repos_with_readme (collect_repos_with_readme
      (fun n : Str => if n = str "alpha" then some (str "# hi") else none)
      (fun _ => []) (fun _ => SubprocOutcome.raised)
      [⟨str "alpha", none, str "https://github.com/u/alpha",
          str "2024-01-02T03:04:05Z", str "2024-06-07T08:09:10Z", 3, 1, 0⟩,
       ⟨str "beta", none, str "https://github.com/u/beta",
          str "2023-01-02T03:04:05Z", str "2024-05-06T07:08:09Z", 5, 2, 4⟩])) = 1 := by
  have h := C8_report_inclusion_and_totals (str "June 01, 2025") (str "demo-user")
    (fun n : Str => if n = str "alpha" then some (str "# hi") else none)
    (fun _ => []) (fun _ => SubprocOutcome.raised)
    [⟨str "alpha", none, str "https://github.com/u/alpha",
        str "2024-01-02T03:04:05Z", str "2024-06-07T08:09:10Z", 3, 1, 0⟩,
     ⟨str "beta", none, str "https://github.com/u/beta",
        str "2023-01-02T03:04:05Z", str "2024-05-06T07:08:09Z", 5, 2, 4⟩]
  refine ⟨?_, h.2.2.1.trans (by decide), h.2.2.2.1.trans (by decide)⟩
  exact h.1
    ⟨⟨str "alpha", none, str "https://github.com/u/alpha",
        str "2024-01-02T03:04:05Z", str "2024-06-07T08:09:10Z", 3, 1, 0⟩,
      [], generate_project_summary (fun _ => SubprocOutcome.raised) (str "alpha")
        (str "# hi") [], str "# hi"⟩
    (List.Mem.head _)
